import Mathlib

/-!
# Verification of the hive-json-poster scripts

Shallow embedding of the three Python scripts of the repository:

* `get_profile.py` — the Account Reader (`get_account_details`, `get_balance_value`);
* `src/hive_json_poster/__init__.py` — the Transaction Broadcaster
  (`post_custom_json`) and its CLI `main` loop;
* `verify_transaction.py` — the Transaction Verifier (`main`).

Remote calls made through the third-party `beem` library are modelled by an
explicit environment record: each field holds the outcome of one external call
(`Except` for calls that may raise).  The bodies of the Python functions are
translated statement by statement; `try`/`except` blocks become matches on the
`Except` outcome of the guarded call.  Python floats are modelled as `ℚ`
(the claims under study concern exact values, defaults and bounds, never
floating-point rounding), and `round(x, 2)` as round-to-nearest at two decimal
places.
-/

/-! ## Account Reader: `get_profile.py` -/

/-- Errors raised by the underlying library: the account-missing exception and
any other RPC/network failure, carrying its message. -/
inductive HiveError where
  | accountNotFound
  | rpc (msg : String)
deriving DecidableEq, Repr

/-- The message `str(e)` of a caught exception. -/
def HiveError.message : HiveError → String
  | .accountNotFound => "Account does not exist"
  | .rpc msg => msg

/-- A `beem` `Amount` object as seen by `get_balance_value`: its truthiness
(`if amount_obj:`) and the result of `float(amount_obj)` (`none` when the
conversion raises, which the surrounding `except` turns into `0.0`). -/
structure Amount where
  truthy : Bool
  toFloat : Option ℚ
deriving DecidableEq, Repr

/-- The helper `get_balance_value(balance_dict, symbol)` from `get_profile.py`:
`balance_dict.get(symbol)` yields `None` (→ `0.0`) when the symbol is absent;
a falsy amount yields `0.0`; a failing `float(...)` is caught and yields
`0.0`. -/
def get_balance_value (balance_dict : List (String × Amount)) (symbol : String) : ℚ :=
  match balance_dict.lookup symbol with
  | none => 0
  | some amount_obj =>
    if amount_obj.truthy then
      match amount_obj.toFloat with
      | some v => v
      | none => 0
    else 0

/-- The three balance maps returned by `account.get_balances()`. -/
structure Balances where
  available : List (String × Amount)
  savings : List (String × Amount)
  rewards : List (String × Amount)
deriving DecidableEq, Repr

/-- The data available on a successfully fetched account object: fields read
from `account.json()` (with `.get` defaults modelled by `Option`), the
balances, and the locally computed reputation and voting power. -/
structure AccountData where
  name : String
  rep : ℚ
  created : Option String
  post_count : Option Int
  comment_count : Option Int
  balances : Balances
  voting_power : ℚ
deriving DecidableEq, Repr

/-- The RC manabar returned by `account.get_rc_manabar()`. -/
structure RCManabar where
  current_mana : Int
  max_mana : Int
deriving DecidableEq, Repr

/-- The dict returned by `account.get_follow_count()`: `none` models a
non-dict result (the `isinstance` check fails), and each count is absent or
present (`.get(…, 0)`). -/
structure FollowCounts where
  follower_count : Option Int
  following_count : Option Int
deriving DecidableEq, Repr

/-- Outcomes of the external calls performed by `get_account_details`.
`account` covers `Account(account_name)` together with the cached-data reads;
`sp_own`/`sp_eff` are the two `account.get_steem_power` calls (they hit the
dynamic global properties, so they can fail); `rc` and `follow` are the two
guarded sub-fetches. -/
structure ProfileEnv where
  account : Except HiveError AccountData
  sp_own : Except HiveError ℚ
  sp_eff : Except HiveError ℚ
  rc : Except HiveError RCManabar
  follow : Except HiveError (Option FollowCounts)

/-- Python's `round(q, 2)`: round to the nearest multiple of `1/100`.
(Mathlib's `round` breaks ties upward while Python breaks them to even; no
claim under study exercises a tie.) -/
def roundTo2 (q : ℚ) : ℚ := (round (q * 100) : ℤ) / 100

/-- The RC-percentage computation of `get_account_details`:
`rc_percent = (current_rc / max_rc * 100) if max_rc > 0 else 0`, stored as
`round(rc_percent, 2)`. -/
def rc_percentage (current_mana max_mana : Int) : ℚ :=
  roundTo2 (if 0 < max_mana then (current_mana : ℚ) / (max_mana : ℚ) * 100 else 0)

/-- The `resource_credits` entry of the profile: either the computed manabar
summary or the error marker `{"error": str(e)}`. -/
inductive RCResult where
  | ok (current_rc max_rc : Int) (rc_percentage : ℚ)
  | error (msg : String)
deriving DecidableEq, Repr

/-- The `stats` entry of the profile. -/
structure Stats where
  post_count : Int
  comment_count : Int
  followers : Int
  following : Int
deriving DecidableEq, Repr

/-- The profile dictionary built by `get_account_details`. -/
structure Profile where
  username : String
  reputation : ℚ
  created : String
  hive_balance : ℚ
  hbd_balance : ℚ
  savings_hive : ℚ
  savings_hbd : ℚ
  hive_power : ℚ
  effective_hive_power : ℚ
  delegated_hive_power : ℚ
  received_hive_power : ℚ
  voting_power : ℚ
  voting_value_hbd : ℚ
  pending_rewards_hive : ℚ
  pending_rewards_hbd : ℚ
  pending_rewards_vests : ℚ
  resource_credits : RCResult
  stats : Stats
deriving DecidableEq, Repr

/-- The function `get_account_details(account_name)` from `get_profile.py`.  The account
fetch and the two `get_steem_power` calls are *not* guarded by `try`/`except`
in the source, so their failures propagate; the RC fetch degrades to an
`{"error": …}` marker and the follow-count fetch degrades to zero counts. -/
def get_account_details (env : ProfileEnv) : Except HiveError Profile := do
  let account ← env.account
  let balances := account.balances
  let hive_power ← env.sp_own
  let effective_hive_power ← env.sp_eff
  let resource_credits :=
    match env.rc with
    | .ok mb => RCResult.ok mb.current_mana mb.max_mana
        (rc_percentage mb.current_mana mb.max_mana)
    | .error e => RCResult.error e.message
  let (follower_count, following_count) :=
    match env.follow with
    | .ok (some fc) => (fc.follower_count.getD 0, fc.following_count.getD 0)
    | .ok none => (0, 0)
    | .error _ => (0, 0)
  return {
    username := account.name
    reputation := account.rep
    created := account.created.getD "N/A"
    hive_balance := get_balance_value balances.available "HIVE"
    hbd_balance := get_balance_value balances.available "HBD"
    savings_hive := get_balance_value balances.savings "HIVE"
    savings_hbd := get_balance_value balances.savings "HBD"
    hive_power := hive_power
    effective_hive_power := effective_hive_power
    delegated_hive_power := 0
    received_hive_power := 0
    voting_power := account.voting_power
    voting_value_hbd := 0
    pending_rewards_hive := get_balance_value balances.rewards "HIVE"
    pending_rewards_hbd := get_balance_value balances.rewards "HBD"
    pending_rewards_vests := get_balance_value balances.rewards "VESTS"
    resource_credits := resource_credits
    stats := {
      post_count := account.post_count.getD 0
      comment_count := account.comment_count.getD 0
      followers := follower_count
      following := following_count } }

/-! ## Transaction Broadcaster: `src/hive_json_poster/__init__.py` -/

/-- A custom-JSON operation as handed to `hive.custom_json`.  The payload is
modelled by its JSON serialization (a string). -/
structure CustomJsonOp where
  id : String
  json_data : String
  required_auths : List String
  required_posting_auths : List String
deriving DecidableEq, Repr

/-- Failures of a broadcast, per the spec's error taxonomy. -/
inductive PostError where
  | authError (msg : String)
  | networkError (msg : String)
  | serializationError
deriving DecidableEq, Repr

/-- The function `post_custom_json(...)` from `__init__.py`: `required_posting_auths`
defaults to `[account_name]` and `required_auths` to `[]` exactly when the
argument `is None`; the assembled operation is then handed to
`hive.custom_json` (the `broadcast` parameter), whose result is returned
unchanged.  `posting_key` only feeds `Hive(keys=[posting_key])`. -/
def post_custom_json {ρ : Type} (broadcast : CustomJsonOp → Except PostError ρ)
    (account_name posting_key json_id : String) (json_data : String)
    (required_auths : Option (List String))
    (required_posting_auths : Option (List String)) : Except PostError ρ :=
  let required_posting_auths :=
    match required_posting_auths with
    | none => [account_name]
    | some l => l
  let required_auths :=
    match required_auths with
    | none => []
    | some l => l
  broadcast {
    id := json_id
    json_data := json_data
    required_auths := required_auths
    required_posting_auths := required_posting_auths }

/-- The chain's custom-JSON byte limit in the reference network. -/
def custom_json_byte_limit : Nat := 8192

/-- Modelled from the spec: the broadcast performed by the third-party
library (`hive.custom_json` delegates to it; it is not part of this
repository's sources).  Per the spec, a payload whose JSON serialization
exceeds the chain's custom-JSON byte limit (8192 bytes) is rejected with a
`SerializationError` — never silently truncated — and an accepted operation
is committed exactly as given, so the model returns the committed
operation. -/
def chain_broadcast (op : CustomJsonOp) : Except PostError CustomJsonOp :=
  if custom_json_byte_limit < op.json_data.utf8ByteSize then
    Except.error PostError.serializationError
  else Except.ok op

/-- The result dict of one `post_custom_json` call, restricted to the keys
the CLI loop inspects. -/
structure TxResult where
  trx_id : Option String
  id : Option String
  txid : Option String
deriving DecidableEq, Repr

/-- Python's `x or y` on optional strings: `None` and `""` are falsy. -/
def pyOrStr : Option String → Option String → Option String
  | some s, b => if s = "" then b else some s
  | none, b => b

/-- The extraction `result.get('trx_id') or result.get('id') or result.get('txid')`. -/
def tx_id_of (result : TxResult) : Option String :=
  pyOrStr result.trx_id (pyOrStr result.id result.txid)

/-- What one loop iteration of `main` prints after its `try`/`except`. -/
inductive PostEvent where
  | successWithId (tx_id : String)
  | postedNoId
  | failed (msg : String)
deriving DecidableEq, Repr

/-- One iteration of the loop in `main`: a call that returns without raising
increments `successful` in both branches of the `if tx_id:` test; a raising
call is caught and increments `failed`. -/
def process_post (counts : Nat × Nat) (outcome : Except String TxResult) :
    (Nat × Nat) × PostEvent :=
  match outcome with
  | .ok result =>
    match tx_id_of result with
    | some tx_id =>
      if tx_id = "" then ((counts.1 + 1, counts.2), PostEvent.postedNoId)
      else ((counts.1 + 1, counts.2), PostEvent.successWithId tx_id)
    | none => ((counts.1 + 1, counts.2), PostEvent.postedNoId)
  | .error e => ((counts.1, counts.2 + 1), PostEvent.failed e)

/-- One loop iteration acting on the accumulated `(successful, failed)`
counts and printed events. -/
def loop_step (acc : (Nat × Nat) × List PostEvent) (o : Except String TxResult) :
    (Nat × Nat) × List PostEvent :=
  let step := process_post acc.1 o
  (step.1, acc.2 ++ [step.2])

/-- The `for i in range(1, 21)` loop of `main`, folded over the given list of
per-call outcomes, starting from `successful = failed = 0`. -/
def broadcast_loop (outcomes : List (Except String TxResult)) :
    (Nat × Nat) × List PostEvent :=
  outcomes.foldl loop_step ((0, 0), [])

/-- The entry point `main` of `__init__.py`: issues exactly 20 sequential calls, the `i`-th
call (1-based) having outcome `outcome i`, and reports the final
`(successful, failed)` counts. -/
def broadcast_main (outcome : Nat → Except String TxResult) :
    (Nat × Nat) × List PostEvent :=
  broadcast_loop ((List.range 20).map (fun k => outcome (k + 1)))

/-! ## Transaction Verifier: `verify_transaction.py` -/

/-- One entry of `account.history(only_ops=["custom_json"])` as printed. -/
structure HistOp where
  block : Nat
  timestamp : String
  trx_id : String
deriving DecidableEq, Repr

/-- Outcomes of the two external calls performed by the verifier's `main`:
the history fetch, and `blockchain.get_transaction(tx_id)` — `ok none`
models a falsy (not-found) return, `error` a raised exception. -/
structure VerifyEnv where
  history : Except String (List HistOp)
  get_transaction : String → Except String (Option String)

/-- What the verifier prints, in order. -/
inductive VEvent where
  | historyError (msg : String)
  | noRecentOps
  | histEntry (block : Nat) (timestamp : String) (trx_id : String)
  | lookupPerformed
  | txFound (details : String)
  | txNotFound
  | lookupError (msg : String)
deriving DecidableEq, Repr

/-- The slice `history[-10:]`: the most recent (at most) 10 entries. -/
def recent_ops (ops : List HistOp) : List HistOp := ops.drop (ops.length - 10)

/-- The transaction ids among the recent history entries the run prints. -/
def recent_trx_ids (env : VerifyEnv) : List String :=
  match env.history with
  | .ok ops => (recent_ops ops).map HistOp.trx_id
  | .error _ => []

/-- The entry point `main` of `verify_transaction.py`.  Both phases run unconditionally:
the history phase only *prints* the recent entries (the requested id is never
compared against them), and the transaction-lookup phase always executes.
Each phase catches its own exceptions and prints an error message, so the
function never propagates an exception (`Except.error` is unreachable). -/
def verify_main (env : VerifyEnv) (tx_id : String) : Except String (List VEvent) :=
  let histEvents :=
    match env.history with
    | .error e => [VEvent.historyError e]
    | .ok ops =>
      if ops.isEmpty then [VEvent.noRecentOps]
      else (recent_ops ops).map (fun op => VEvent.histEntry op.block op.timestamp op.trx_id)
  let lookupEvents :=
    match env.get_transaction tx_id with
    | .error e => [VEvent.lookupPerformed, VEvent.lookupError e]
    | .ok (some tx) => [VEvent.lookupPerformed, VEvent.txFound tx]
    | .ok none => [VEvent.lookupPerformed, VEvent.txNotFound]
  Except.ok (histEvents ++ lookupEvents)

/-! ## Shared helper lemmas and concrete fixtures -/

/-- A call raised an exception. -/
def is_raised : Except String TxResult → Bool
  | .ok _ => false
  | .error _ => true

theorem process_post_ok (st : Nat × Nat) (r : TxResult) :
    (process_post st (Except.ok r)).1 = (st.1 + 1, st.2) := by
  unfold process_post
  rcases h : tx_id_of r with _ | t
  · simp [h]
  · by_cases ht : t = "" <;> simp [h, ht]

theorem process_post_error (st : Nat × Nat) (e : String) :
    (process_post st (Except.error e)).1 = (st.1, st.2 + 1) := rfl

theorem loop_counts (outcomes : List (Except String TxResult)) :
    ∀ st : (Nat × Nat) × List PostEvent,
      (outcomes.foldl loop_step st).1.1 =
        st.1.1 + outcomes.countP (fun o => !(is_raised o)) ∧
      (outcomes.foldl loop_step st).1.2 =
        st.1.2 + outcomes.countP is_raised := by
  induction outcomes with
  | nil => simp
  | cons o os ih =>
    intro st
    rw [List.foldl_cons]
    rcases ih (loop_step st o) with ⟨h1, h2⟩
    rw [h1, h2]
    cases o with
    | ok r =>
      have hc : (loop_step st (Except.ok r)).1 = (st.1.1 + 1, st.1.2) := by
        simpa [loop_step] using process_post_ok st.1 r
      rw [hc]
      simp [is_raised, List.countP_cons]
      omega
    | error e =>
      have hc : (loop_step st (Except.error e)).1 = (st.1.1, st.1.2 + 1) := by
        simp [loop_step, process_post]
      rw [hc]
      simp [is_raised, List.countP_cons]
      omega

/-- A concrete account record used by the concrete runs below: no HBD entry
in any balance map. -/
def accW : AccountData := {
  name := "alice"
  rep := 25
  created := none
  post_count := none
  comment_count := none
  balances := { available := [("HIVE", ⟨true, some 1⟩)], savings := [], rewards := [] }
  voting_power := 100 }

/-- A concrete environment: account found, both power conversions available,
RC fetch failing, follow-count fetch returning a non-dict. -/
def envW : ProfileEnv := {
  account := Except.ok accW
  sp_own := Except.ok 1
  sp_eff := Except.ok 2
  rc := Except.error (HiveError.rpc "rc unavailable")
  follow := Except.ok none }

/-- The profile `get_account_details` produces on `envW`. -/
def profW : Profile := {
  username := "alice"
  reputation := 25
  created := "N/A"
  hive_balance := 1
  hbd_balance := 0
  savings_hive := 0
  savings_hbd := 0
  hive_power := 1
  effective_hive_power := 2
  delegated_hive_power := 0
  received_hive_power := 0
  voting_power := 100
  voting_value_hbd := 0
  pending_rewards_hive := 0
  pending_rewards_hbd := 0
  pending_rewards_vests := 0
  resource_credits := RCResult.error "rc unavailable"
  stats := { post_count := 0, comment_count := 0, followers := 0, following := 0 } }

theorem get_account_details_envW : get_account_details envW = Except.ok profW := rfl

theorem except_bind_ok {ε : Type u} {α β : Type v} (a : α) (f : α → Except ε β) :
    (Except.ok a >>= f : Except ε β) = f a := rfl

theorem except_bind_error {ε : Type u} {α β : Type v} (e : ε) (f : α → Except ε β) :
    (Except.error e >>= f : Except ε β) = Except.error e := rfl

theorem except_pure {ε : Type u} {α : Type v} (a : α) :
    (pure a : Except ε α) = Except.ok a := rfl

theorem countP_raised_split (l : List (Except String TxResult)) :
    l.countP (fun o => !(is_raised o)) + l.countP is_raised = l.length := by
  induction l with
  | nil => rfl
  | cons o os ih =>
    cases o with
    | ok r =>
      rw [List.countP_cons_of_pos _ _ (by simp [is_raised]),
        List.countP_cons_of_neg _ _ (by simp [is_raised]), List.length_cons]
      omega
    | error e =>
      rw [List.countP_cons_of_neg _ _ (by simp [is_raised]),
        List.countP_cons_of_pos _ _ (by simp [is_raised]), List.length_cons]
      omega

theorem roundTo2_bounds (q : ℚ) (h0 : 0 ≤ q) (h1 : q ≤ 100) :
    0 ≤ roundTo2 q ∧ roundTo2 q ≤ 100 := by
  unfold roundTo2
  have hl : (0 : ℤ) ≤ round (q * 100) := by
    rw [round_eq]
    have h : (0 : ℤ) = ⌊(0 : ℚ) + 1 / 2⌋ := by norm_num
    rw [h]
    exact Int.floor_le_floor (by linarith)
  have hr : round (q * 100) ≤ 10000 := by
    rw [round_eq]
    have h : (10000 : ℤ) = ⌊(10000 : ℚ) + 1 / 2⌋ := by norm_num
    rw [h]
    exact Int.floor_le_floor (by linarith)
  constructor
  · positivity
  · rw [div_le_iff₀ (by norm_num : (0 : ℚ) < 100)]
    calc ((round (q * 100) : ℤ) : ℚ) ≤ ((10000 : ℤ) : ℚ) := by exact_mod_cast hr
    _ = 100 * 100 := by norm_num

/-! ## Claim theorems -/

/-- A concrete environment in which the account is found but the
vesting-share-to-Hive conversion data is unavailable. -/
def envHPFail : ProfileEnv := {
  account := Except.ok accW
  sp_own := Except.error (HiveError.rpc "dynamic global properties unavailable")
  sp_eff := Except.error (HiveError.rpc "dynamic global properties unavailable")
  rc := Except.ok ⟨100, 200⟩
  follow := Except.ok (some ⟨some 3, some 4⟩) }

/-- C1, counterexample: with the account present but the Hive Power
conversion data unavailable, `get_account_details` does not report
`hive_power = 0.0` — it propagates the RPC error, which is not
`AccountNotFound`, so the operation neither returns a profile nor raises
`AccountNotFound`. -/
theorem get_account_details_hp_unavailable_counterexample :
    get_account_details envHPFail =
      Except.error (HiveError.rpc "dynamic global properties unavailable") ∧
    HiveError.rpc "dynamic global properties unavailable" ≠ HiveError.accountNotFound :=
  ⟨rfl, by simp⟩

/-- C1 (amended): when the account fetch and both Hive Power conversions
succeed, `get_account_details` returns a profile whatever the outcome of the
RC and follower-count sub-fetches (those degrade to error markers/defaults);
but the Hive Power conversion is not guarded, so its failure propagates out
of `get_account_details` instead of being reported as `0.0`. -/
theorem get_account_details_partial_failure (env : ProfileEnv) :
    (∀ acc hp ehp, env.account = Except.ok acc → env.sp_own = Except.ok hp →
      env.sp_eff = Except.ok ehp → (get_account_details env).isOk = true) ∧
    (∀ acc e, env.account = Except.ok acc → env.sp_own = Except.error e →
      get_account_details env = Except.error e) := by
  constructor
  · intro acc hp ehp ha hs he
    simp [get_account_details, ha, hs, he, Except.isOk, Except.toBool, except_bind_ok]
  · intro acc e ha hs
    simp [get_account_details, ha, hs, except_bind_ok, except_bind_error]

/-- C1, witness: on `envW` (RC fetch failing, follow fetch a non-dict) the
profile is still produced; on `envHPFail` the conversion error propagates. -/
theorem get_account_details_partial_failure_witness :
    (get_account_details envW).isOk = true ∧
    get_account_details envHPFail =
      Except.error (HiveError.rpc "dynamic global properties unavailable") :=
  ⟨(get_account_details_partial_failure envW).1 accW 1 2 rfl rfl rfl,
   (get_account_details_partial_failure envHPFail).2 accW
     (HiveError.rpc "dynamic global properties unavailable") rfl rfl⟩

/-- A concrete environment whose RC manabar reports more current than max
mana. -/
def envRCBig : ProfileEnv := {
  account := Except.ok accW
  sp_own := Except.ok 1
  sp_eff := Except.ok 2
  rc := Except.ok ⟨2, 1⟩
  follow := Except.ok none }

/-- C2, counterexample: a manabar with current mana 2 and max mana 1 flows
through `get_account_details` unclamped — the reported `rc_percentage` is
200, outside `[0, 100]`. -/
theorem rc_percentage_unclamped_counterexample :
    (get_account_details envRCBig).map Profile.resource_credits =
      Except.ok (RCResult.ok 2 1 200) ∧ ¬ ((200 : ℚ) ≤ 100) := by
  constructor
  · have h : rc_percentage 2 1 = 200 := by
      norm_num [rc_percentage, roundTo2, round_eq]
    simp [get_account_details, envRCBig, accW, except_bind_ok, h]
    rfl
  · norm_num

/-- C2 (amended): when max mana = 0 the reported percentage is 0 and the
division branch is not taken; when max mana > 0 the percentage is
`round₂(current/max·100)` with no clamping applied; consequently it lies in
`[0, 100]` whenever `0 ≤ current ≤ max`. -/
theorem rc_percentage_spec (c m : Int) :
    rc_percentage c 0 = 0 ∧
    (0 < m → rc_percentage c m = roundTo2 ((c : ℚ) / (m : ℚ) * 100)) ∧
    (0 ≤ c → c ≤ m → 0 < m → 0 ≤ rc_percentage c m ∧ rc_percentage c m ≤ 100) := by
  refine ⟨by norm_num [rc_percentage, roundTo2, round_eq], fun hm => by
    simp [rc_percentage, hm], fun hc hcm hm => ?_⟩
  have hm' : (0 : ℚ) < (m : ℚ) := by exact_mod_cast hm
  have hc' : (0 : ℚ) ≤ (c : ℚ) := by exact_mod_cast hc
  have hcm' : (c : ℚ) ≤ (m : ℚ) := by exact_mod_cast hcm
  have hq0 : 0 ≤ (c : ℚ) / (m : ℚ) * 100 := by positivity
  have hq1 : (c : ℚ) / (m : ℚ) * 100 ≤ 100 := by
    have hdiv : (c : ℚ) / (m : ℚ) ≤ 1 := (div_le_one hm').mpr hcm'
    nlinarith
  have hb := roundTo2_bounds _ hq0 hq1
  simpa [rc_percentage, hm] using hb

/-- C2, witness: a manabar with current mana 1 and max mana 2 reports 50%,
inside the bounds; with max mana 0 the percentage is 0. -/
theorem rc_percentage_spec_witness :
    rc_percentage 1 0 = 0 ∧ 0 ≤ rc_percentage 1 2 ∧ rc_percentage 1 2 ≤ 100 :=
  ⟨(rc_percentage_spec 1 0).1,
   ((rc_percentage_spec 1 2).2.2 (by decide) (by decide) (by decide)).1,
   ((rc_percentage_spec 1 2).2.2 (by decide) (by decide) (by decide)).2⟩

/-- The simulated outcome schedule in which every 5th call fails. -/
def every_fifth_fails : Nat → Except String TxResult := fun i =>
  if i % 5 = 0 then Except.error "simulated failure"
  else Except.ok { trx_id := some "tid", id := none, txid := none }

/-- C3: `main` issues exactly 20 sequential calls and its loop never stops at
a failure — for every outcome schedule the summary satisfies
`successful + failed = 20`, and under the schedule in which exactly every 5th
call fails the summary is 16 successes and 4 failures. -/
theorem broadcast_main_counts (outcome : Nat → Except String TxResult) :
    (broadcast_main outcome).1.1 + (broadcast_main outcome).1.2 = 20 ∧
    (broadcast_main every_fifth_fails).1 = (16, 4) := by
  constructor
  · unfold broadcast_main broadcast_loop
    rcases loop_counts ((List.range 20).map fun k => outcome (k + 1)) ((0, 0), []) with ⟨h1, h2⟩
    rw [h1, h2]
    have hlen := countP_raised_split ((List.range 20).map fun k => outcome (k + 1))
    simp only [List.length_map, List.length_range] at hlen
    simpa using hlen
  · decide

/-- C4, counterexample: a call whose `required_posting_auths` argument is the
empty list broadcasts the operation with an empty `required_posting_auths`,
not with `[account_name]`. -/
theorem post_custom_json_empty_auths_counterexample :
    post_custom_json Except.ok "alice" "5Kkey" "my-app" "[1]" none (some []) =
      Except.ok { id := "my-app", json_data := "[1]", required_auths := [],
                  required_posting_auths := [] } ∧
    ([] : List String) ≠ ["alice"] :=
  ⟨rfl, by decide⟩

/-- C4 (amended): the default to `[account_name]` applies exactly when the
`required_posting_auths` argument is `None` (omitted); an explicitly given
list — the empty list included — is broadcast as given, and the remaining
arguments reach the broadcast unchanged. -/
theorem post_custom_json_posting_auths {ρ : Type}
    (broadcast : CustomJsonOp → Except PostError ρ)
    (account_name posting_key json_id json_data : String)
    (required_auths : Option (List String)) :
    (post_custom_json broadcast account_name posting_key json_id json_data
        required_auths none =
      broadcast { id := json_id, json_data := json_data,
                  required_auths := required_auths.getD [],
                  required_posting_auths := [account_name] }) ∧
    (∀ l, post_custom_json broadcast account_name posting_key json_id json_data
        required_auths (some l) =
      broadcast { id := json_id, json_data := json_data,
                  required_auths := required_auths.getD [],
                  required_posting_auths := l }) := by
  constructor
  · cases required_auths <;> rfl
  · intro l
    cases required_auths <;> rfl

/-- C10: in the broadcast loop, `successful` counts exactly the calls that
return without raising — a returned result with no transaction id under
`trx_id`, `id` or `txid` is still a success, logged as `postedNoId` — and
`failed` counts exactly the raising calls. -/
theorem broadcast_loop_success_counts (outcomes : List (Except String TxResult)) :
    (broadcast_loop outcomes).1.1 = outcomes.countP (fun o => !(is_raised o)) ∧
    (broadcast_loop outcomes).1.2 = outcomes.countP is_raised ∧
    broadcast_loop [Except.ok { trx_id := none, id := none, txid := none }] =
      ((1, 0), [PostEvent.postedNoId]) := by
  rcases loop_counts outcomes ((0, 0), []) with ⟨h1, h2⟩
  exact ⟨by simpa using h1, by simpa using h2, rfl⟩

/-- A verification run whose requested id is the one custom-json entry in
recent history and is absent from the chain lookup. -/
def envInHistory : VerifyEnv := {
  history := Except.ok [{ block := 1, timestamp := "2024-01-01", trx_id := "abc" }]
  get_transaction := fun _ => Except.ok none }

/-- C5, counterexample: the requested id `"abc"` appears among the last 10
custom-json history entries, yet the run still performs the direct
transaction-by-id lookup — the lookup is not reserved for the not-found-in-
history case. -/
theorem verify_direct_lookup_counterexample :
    "abc" ∈ recent_trx_ids envInHistory ∧
    verify_main envInHistory "abc" =
      Except.ok [VEvent.histEntry 1 "2024-01-01" "abc", VEvent.lookupPerformed,
                 VEvent.txNotFound] ∧
    VEvent.lookupPerformed ∈
      [VEvent.histEntry 1 "2024-01-01" "abc", VEvent.lookupPerformed,
       VEvent.txNotFound] :=
  ⟨by decide, rfl, by decide⟩

/-- C5 (amended): the verifier performs the direct transaction lookup on
every run, whether or not the requested id appears among the recent history
entries — the history phase only prints the entries and never matches the id
against them. -/
theorem verify_main_always_direct_lookup (env : VerifyEnv) (tx_id : String)
    (tr : List VEvent) (h : verify_main env tx_id = Except.ok tr) :
    VEvent.lookupPerformed ∈ tr := by
  unfold verify_main at h
  injection h with h
  subst h
  apply List.mem_append.mpr
  right
  cases hgt : env.get_transaction tx_id with
  | error e => simp [hgt]
  | ok o => cases o <;> simp [hgt]

/-- C5, witness: a run with empty history performs the direct lookup. -/
theorem verify_main_always_direct_lookup_witness :
    VEvent.lookupPerformed ∈
      [VEvent.noRecentOps, VEvent.lookupPerformed, VEvent.txNotFound] :=
  verify_main_always_direct_lookup
    { history := Except.ok [], get_transaction := fun _ => Except.ok none }
    "abc" _ rfl

/-- C6: when the requested id is absent from the recent history entries and
the direct lookup reports not-found, the verifier terminates normally with an
explicit not-found event — no exception propagates (`verify_main` returns
`Except.ok`). -/
theorem verify_main_not_found (env : VerifyEnv) (tx_id : String)
    (hhist : tx_id ∉ recent_trx_ids env)
    (hlook : env.get_transaction tx_id = Except.ok none) :
    ∃ tr, verify_main env tx_id = Except.ok tr ∧ VEvent.txNotFound ∈ tr := by
  refine ⟨_, rfl, ?_⟩
  apply List.mem_append.mpr
  right
  simp [hlook]

/-- C6, witness: a run whose history holds one unrelated entry and whose
lookup misses ends in the explicit not-found event without an exception. -/
theorem verify_main_not_found_witness :
    ("zzz" ∉ recent_trx_ids envInHistory) ∧
    ∃ tr, verify_main envInHistory "zzz" = Except.ok tr ∧ VEvent.txNotFound ∈ tr :=
  ⟨by decide, verify_main_not_found envInHistory "zzz" (by decide) rfl⟩

theorem utf8_go_replicate (n : Nat) :
    String.utf8ByteSize.go (List.replicate n 'a') = n := by
  induction n with
  | zero => rfl
  | succ k ih =>
    rw [List.replicate_succ]
    show String.utf8ByteSize.go (List.replicate k 'a') + 'a'.utf8Size = k + 1
    rw [ih]
    rfl

/-- C7: against the spec-modelled chain, a payload whose JSON serialization
exceeds the 8192-byte custom-JSON limit makes `post_custom_json` fail with a
`SerializationError`, and any accepted operation carries the payload
unchanged — it is never truncated. -/
theorem post_custom_json_size_limit (account_name posting_key json_id json_data : String)
    (required_auths required_posting_auths : Option (List String)) :
    (custom_json_byte_limit < json_data.utf8ByteSize →
      post_custom_json chain_broadcast account_name posting_key json_id json_data
        required_auths required_posting_auths =
      Except.error PostError.serializationError) ∧
    (∀ op, post_custom_json chain_broadcast account_name posting_key json_id json_data
        required_auths required_posting_auths = Except.ok op →
      op.json_data = json_data) := by
  constructor
  · intro h
    simp [post_custom_json, chain_broadcast, h]
  · intro op h
    simp only [post_custom_json, chain_broadcast] at h
    split at h
    · exact absurd h (by simp)
    · injection h with h
      subst h
      rfl

/-- C7, witness: an 8193-byte payload is rejected as a serialization error. -/
theorem post_custom_json_size_limit_witness :
    custom_json_byte_limit < (String.mk (List.replicate 8193 'a')).utf8ByteSize ∧
    post_custom_json chain_broadcast "alice" "5Kkey" "my-app"
      (String.mk (List.replicate 8193 'a')) none none =
      Except.error PostError.serializationError := by
  have hsz : (String.mk (List.replicate 8193 'a')).utf8ByteSize = 8193 :=
    utf8_go_replicate 8193
  have hlt : custom_json_byte_limit < (String.mk (List.replicate 8193 'a')).utf8ByteSize := by
    rw [hsz]
    decide
  exact ⟨hlt,
    (post_custom_json_size_limit "alice" "5Kkey" "my-app"
      (String.mk (List.replicate 8193 'a')) none none).1 hlt⟩

/-- C8: a currency symbol absent from a balance map makes `get_balance_value`
report `0.0` without failing; in particular a raw account record whose
available balances hold no `HBD` entry yields a profile with
`hbd_balance = 0.0`. -/
theorem get_balance_value_missing_symbol (d : List (String × Amount)) (s : String)
    (env : ProfileEnv) (acc : AccountData) (p : Profile) :
    (d.lookup s = none → get_balance_value d s = 0) ∧
    (env.account = Except.ok acc → get_account_details env = Except.ok p →
      acc.balances.available.lookup "HBD" = none → p.hbd_balance = 0) := by
  constructor
  · intro h
    simp [get_balance_value, h]
  · intro ha hp hmiss
    rcases hso : env.sp_own with e | hpq
    · simp [get_account_details, ha, hso, except_bind_ok, except_bind_error] at hp
    · rcases hse : env.sp_eff with e' | ehp
      · simp [get_account_details, ha, hso, hse, except_bind_ok, except_bind_error] at hp
      · rw [get_account_details] at hp
        simp only [ha, hso, hse, except_bind_ok, except_pure] at hp
        injection hp with hp
        subst hp
        simp [get_balance_value, hmiss]

/-- C8, witness: the empty balance map and the `envW` account (whose
available balances hold only `HIVE`) both report an HBD balance of 0. -/
theorem get_balance_value_missing_symbol_witness :
    get_balance_value [] "HBD" = 0 ∧ profW.hbd_balance = 0 :=
  ⟨(get_balance_value_missing_symbol [] "HBD" envW accW profW).1 rfl,
   (get_balance_value_missing_symbol [] "HBD" envW accW profW).2 rfl
     get_account_details_envW rfl⟩

/-- C9: every profile `get_account_details` returns carries the hardcoded
placeholder values `delegated_hive_power = 0.0`, `received_hive_power = 0.0`
and `voting_value_hbd = 0.0`, whatever the environment reports. -/
theorem profile_placeholder_fields_zero (env : ProfileEnv) (p : Profile)
    (h : get_account_details env = Except.ok p) :
    p.delegated_hive_power = 0 ∧ p.received_hive_power = 0 ∧ p.voting_value_hbd = 0 := by
  rcases ha : env.account with e | acc
  · simp [get_account_details, ha, except_bind_error] at h
  · rcases hso : env.sp_own with e' | hpq
    · simp [get_account_details, ha, hso, except_bind_ok, except_bind_error] at h
    · rcases hse : env.sp_eff with e'' | ehp
      · simp [get_account_details, ha, hso, hse, except_bind_ok, except_bind_error] at h
      · rw [get_account_details] at h
        simp only [ha, hso, hse, except_bind_ok, except_pure] at h
        injection h with h
        subst h
        exact ⟨rfl, rfl, rfl⟩

/-- C9, witness: the placeholder fields of the profile computed on `envW`. -/
theorem profile_placeholder_fields_zero_witness :
    profW.delegated_hive_power = 0 ∧ profW.received_hive_power = 0 ∧
    profW.voting_value_hbd = 0 :=
  profile_placeholder_fields_zero envW profW get_account_details_envW
